import Mathlib

/-!
Shallow embedding of the expense-tracker server.

The repository holds two variants of the same server:
`src/main.py` (the v3.0 server, with per-operation exception handling and a
dry-run mode on both delete and update) and `src/backup.py` (the v2.0
variant, without exception handling).  Both are embedded below, the first
under the namespace `Main`, the second under `Backup`.

Modelling conventions:
* an SQLite `expenses` row is an `Expense`; the table plus its
  AUTOINCREMENT counter is a `DB`;
* Python `None` for an optional argument is `Option.none`; a supplied
  value (including the empty string) is `Option.some`;
* `REAL` amounts are modelled as `Int` (the claims under study concern
  sign and exact sums, not rounding);
* SQLite's BINARY collation on `TEXT` dates is the lexicographic
  comparison `strLe` on the character list;
* a storage fault raised while talking to SQLite is modelled by an extra
  argument `exc : Option String`: `some msg` means the statement raised an
  exception carrying `msg`, `none` means it succeeded.  Operations of
  `main.py` (which wrap their body in `try`/`except`) are total functions
  into their result type; operations of `backup.py` (no handler) return
  `Except String _`, the `.error` constructor being an exception that
  escapes the operation.
-/

namespace ExpenseTracker

/-- One row of the `expenses` table (`id` INTEGER PRIMARY KEY AUTOINCREMENT,
`date` TEXT, `amount` REAL, `category` TEXT, `subcategory` TEXT, `note` TEXT). -/
structure Expense where
  id : Nat
  date : String
  amount : Int
  category : String
  subcategory : String
  note : String
deriving Repr, DecidableEq

/-- The `expenses` table together with the AUTOINCREMENT counter that
assigns the next fresh `id`. -/
structure DB where
  rows : List Expense
  nextId : Nat
deriving Repr, DecidableEq

/-- SQLite BINARY (byte-wise) comparison on character lists, used for the
`date BETWEEN ? AND ?` predicate. -/
def charsLe : List Char → List Char → Bool
  | [], _ => true
  | _ :: _, [] => false
  | a :: as, b :: bs => if a = b then charsLe as bs else decide (a < b)

/-- Here `strLe a b` is SQLite's `a <= b` on TEXT values under BINARY collation. -/
def strLe (a b : String) : Bool := charsLe a.toList b.toList

/-- A bound SQL parameter, as appended to the `params` lists of the
query-building code. -/
inductive Value where
  | int (i : Int)
  | str (s : String)
deriving Repr, DecidableEq

/-- One `AND`-conjunct of the WHERE clause that `delete_expenses` /
`update_expenses` build from their optional filter arguments. -/
inductive WhereClause where
  | idEq (i : Nat)
  | dateEq (d : String)
  | dateBetween (s e : String)
  | categoryEq (c : String)
  | subcategoryEq (s : String)
deriving Repr, DecidableEq

/-- The bound parameters a clause appends to the `params` list. -/
def clauseParams : WhereClause → List Value
  | .idEq i => [.int i]
  | .dateEq d => [.str d]
  | .dateBetween s e => [.str s, .str e]
  | .categoryEq c => [.str c]
  | .subcategoryEq s => [.str s]

/-- The SQL text a clause appends to the query string. -/
def clauseSql : WhereClause → String
  | .idEq _ => " AND id = ?"
  | .dateEq _ => " AND date = ?"
  | .dateBetween _ _ => " AND date BETWEEN ? AND ?"
  | .categoryEq _ => " AND category = ?"
  | .subcategoryEq _ => " AND subcategory = ?"

/-- The SQL text of a whole built WHERE-clause tail (everything the code
appends after `WHERE 1=1`). -/
def condsSql (cs : List WhereClause) : String :=
  String.join (cs.map clauseSql)

/-- The flattened bound-parameter list of a built WHERE clause: the
`params` / `where_params` variable of the source. -/
def whereParams (cs : List WhereClause) : List Value :=
  (cs.map clauseParams).flatten

/-- Whether a row satisfies one WHERE conjunct. -/
def matchesClause (r : Expense) : WhereClause → Bool
  | .idEq i => r.id == i
  | .dateEq d => r.date == d
  | .dateBetween s e => strLe s r.date && strLe r.date e
  | .categoryEq c => r.category == c
  | .subcategoryEq s => r.subcategory == s

/-- Whether a row satisfies every conjunct of a built WHERE clause. -/
def matchesAll (cs : List WhereClause) (r : Expense) : Bool :=
  cs.all (matchesClause r)

/-- One assignment of the SET clause built by `update_expenses` from its
optional `new_*` arguments. -/
inductive SetClause where
  | date (d : String)
  | amount (a : Int)
  | category (c : String)
  | subcategory (s : String)
  | note (n : String)
deriving Repr, DecidableEq

/-- The SQL text of one SET assignment. -/
def setSql : SetClause → String
  | .date _ => "date = ?"
  | .amount _ => "amount = ?"
  | .category _ => "category = ?"
  | .subcategory _ => "subcategory = ?"
  | .note _ => "note = ?"

/-- The bound parameter of one SET assignment (an element of `set_params`). -/
def setParam : SetClause → Value
  | .date d => .str d
  | .amount a => .int a
  | .category c => .str c
  | .subcategory s => .str s
  | .note n => .str n

/-- Apply the SET assignments of an UPDATE to one row. -/
def applySets (ss : List SetClause) (r : Expense) : Expense :=
  ss.foldl (fun r s =>
    match s with
    | .date d => { r with date := d }
    | .amount a => { r with amount := a }
    | .category c => { r with category := c }
    | .subcategory sc => { r with subcategory := sc }
    | .note n => { r with note := n }) r

/-- The SET clause list built by `update_expenses` in source order
(`new_date`, `new_amount`, `new_category`, `new_subcategory`, `new_note`);
each `new_*` argument contributes an assignment exactly when it `is not None`. -/
def buildSet (new_date : Option String) (new_amount : Option Int)
    (new_category new_subcategory new_note : Option String) : List SetClause :=
  (new_date.map SetClause.date).toList ++
  (new_amount.map SetClause.amount).toList ++
  (new_category.map SetClause.category).toList ++
  (new_subcategory.map SetClause.subcategory).toList ++
  (new_note.map SetClause.note).toList

/-- Python's `", ".join(...)`, used to render the SET clause text. -/
def commaJoin : List String → String
  | [] => ""
  | [s] => s
  | s :: rest => s ++ ", " ++ commaJoin rest

/-- Everything after the first occurrence of `sep` in the list, or `none`
when `sep` does not occur: the character-level core of Python's
`s.split(sep, 1)[1]`. -/
def afterFirstAux (sep : List Char) : List Char → Option (List Char)
  | [] => none
  | c :: rest =>
      if sep.isPrefixOf (c :: rest) then some ((c :: rest).drop sep.length)
      else afterFirstAux sep rest

/-- Python's `s.split(sep, 1)[1]`: the text after the first occurrence of
`sep`, or `none` when `sep` is absent (where Python would raise IndexError). -/
def pySplitTail (sep s : String) : Option String :=
  (afterFirstAux sep.toList s.toList).map fun l => ⟨l⟩

namespace Main

/-- The date-range conjunct of `main.py`: guarded by Python truthiness
(`if start_date and end_date:`), so a bound that is `None` **or** the empty
string leaves the range predicate out. -/
def rangeClauses (start_date end_date : Option String) : List WhereClause :=
  match start_date, end_date with
  | some s, some e => if s ≠ "" && e ≠ "" then [.dateBetween s e] else []
  | _, _ => []

/-- The WHERE clause list built by `main.py`'s `delete_expenses`
(lines 142–156) and, with `date`/`category`/`subcategory` read as
`filter_date`/`filter_category`/`filter_subcategory`, line-for-line by its
`update_expenses` (lines 219–233): id, exact date, date range, category,
subcategory, in source order. -/
def buildWhere (expense_id : Option Nat)
    (date start_date end_date category subcategory : Option String) :
    List WhereClause :=
  (expense_id.map WhereClause.idEq).toList ++
  (date.map WhereClause.dateEq).toList ++
  rangeClauses start_date end_date ++
  (category.map WhereClause.categoryEq).toList ++
  (subcategory.map WhereClause.subcategoryEq).toList

/-- Result of `add_expense` in `main.py`. -/
inductive AddResult where
  | ok (id : Nat)
  | error (message : String)
deriving Repr, DecidableEq

/-- The tool `add_expense` of `main.py`: INSERT with the literal amount; any storage
exception is caught and turned into an error envelope. -/
def add_expense (date : String) (amount : Int) (category : String)
    (subcategory : String) (note : String)
    (exc : Option String) (db : DB) : AddResult × DB :=
  match exc with
  | some m => (.error m, db)
  | none =>
      (.ok db.nextId,
       { rows := db.rows ++ [⟨db.nextId, date, amount, category, subcategory, note⟩],
         nextId := db.nextId + 1 })

/-- Result of `credit_expense` in `main.py`. -/
inductive CreditResult where
  | ok (id : Nat) (credited : Int)
  | error (message : String)
deriving Repr, DecidableEq

/-- The tool `credit_expense` of `main.py`: `credit_amount = -abs(amount)` is
computed first, then the INSERT stores it; the result carries the stored
amount in its `credited` field. -/
def credit_expense (date : String) (amount : Int) (category : String)
    (subcategory : String) (note : String)
    (exc : Option String) (db : DB) : CreditResult × DB :=
  let credit_amount : Int := -(|amount|)
  match exc with
  | some m => (.error m, db)
  | none =>
      (.ok db.nextId credit_amount,
       { rows := db.rows ++ [⟨db.nextId, date, credit_amount, category, subcategory, note⟩],
         nextId := db.nextId + 1 })

/-- Result of `list_expenses` in `main.py`. -/
inductive ListResult where
  | rows (rs : List Expense)
  | error (message : String)
deriving Repr, DecidableEq

/-- The rows of a successful `list_expenses` result (a failed call has none). -/
def ListResult.getRows : ListResult → List Expense
  | .rows rs => rs
  | .error _ => []

/-- The `ORDER BY date DESC, id DESC` comparison of `main.py`'s
`list_expenses`. -/
def listOrder (a b : Expense) : Bool :=
  if a.date = b.date then decide (b.id ≤ a.id)
  else !strLe a.date b.date

/-- The `WHERE date BETWEEN ? AND ?` row predicate shared by
`list_expenses` and `summarize`. -/
def inRange (start_date end_date : String) (r : Expense) : Bool :=
  strLe start_date r.date && strLe r.date end_date

/-- The tool `list_expenses` of `main.py`: every row whose date lies inclusively in
the range, ordered by date descending then id descending. -/
def list_expenses (start_date end_date : String)
    (exc : Option String) (db : DB) : ListResult :=
  match exc with
  | some m => .error m
  | none => .rows ((db.rows.filter (inRange start_date end_date)).mergeSort listOrder)

/-- One output row of `summarize`: `category`, `SUM(amount)`, `COUNT(*)`. -/
structure SummaryRow where
  category : String
  total_amount : Int
  count : Nat
deriving Repr, DecidableEq

/-- Result of `summarize` in `main.py`. -/
inductive SummarizeResult where
  | rows (rs : List SummaryRow)
  | error (message : String)
deriving Repr, DecidableEq

/-- The rows of a successful `summarize` result. -/
def SummarizeResult.getRows : SummarizeResult → List SummaryRow
  | .rows rs => rs
  | .error _ => []

/-- The rows `summarize` aggregates over: the date range filter, plus the
`AND category = ?` filter exactly when `category` is Python-truthy
(`if category:` — `None` and the empty string both skip it). -/
def summarizeFiltered (start_date end_date : String) (category : Option String)
    (db : DB) : List Expense :=
  let base := db.rows.filter (inRange start_date end_date)
  match category with
  | some c => if c ≠ "" then base.filter (fun r => r.category == c) else base
  | none => base

/-- The tool `summarize` of `main.py`: GROUP BY category with `SUM(amount)` and
`COUNT(*)`, `ORDER BY total_amount DESC`. -/
def summarize (start_date end_date : String) (category : Option String)
    (exc : Option String) (db : DB) : SummarizeResult :=
  match exc with
  | some m => .error m
  | none =>
      let filtered := summarizeFiltered start_date end_date category db
      let cats := (filtered.map (·.category)).dedup
      let rows := cats.map (fun c =>
        let g := filtered.filter (fun r => r.category == c)
        SummaryRow.mk c ((g.map (·.amount)).sum) g.length)
      .rows (rows.mergeSort (fun a b => decide (b.total_amount ≤ a.total_amount)))

/-- The mutating statement text built by `delete_expenses`. -/
def deleteQuery (cs : List WhereClause) : String :=
  "DELETE FROM expenses WHERE 1=1" ++ condsSql cs

/-- The mutating statement text built by `update_expenses`. -/
def updateQuery (ss : List SetClause) (cs : List WhereClause) : String :=
  "UPDATE expenses SET " ++ commaJoin (ss.map setSql) ++ " WHERE 1=1" ++ condsSql cs

/-- A read-only SELECT with the given WHERE conjuncts. -/
def selectQuery (cs : List WhereClause) : String :=
  "SELECT * FROM expenses WHERE 1=1" ++ condsSql cs

/-- The dry-run preview statement the source splices out of the mutating
statement's text:
`"SELECT * FROM expenses WHERE 1=1" + query.split("WHERE 1=1", 1)[1]`. -/
def previewQuery (q : String) : Option String :=
  (pySplitTail "WHERE 1=1" q).map (fun tail => "SELECT * FROM expenses WHERE 1=1" ++ tail)

/-- Result of `delete_expenses` in `main.py`. -/
inductive DeleteResult where
  | ok (deleted : Nat)
  | dry_run (rows : List Expense)
  | error (message : String)
deriving Repr, DecidableEq

/-- The tool `delete_expenses` of `main.py`: builds the WHERE clause from the
optional filters; declines with an error when the bound-parameter list is
empty; otherwise either previews the matching rows (dry run) or deletes
them and reports the affected-row count.  The preview executes the spliced
`previewQuery (deleteQuery cs)` text, whose WHERE conjuncts coincide with
`cs` (proved below), so its result set is the rows matching `cs`. -/
def delete_expenses (expense_id : Option Nat)
    (date start_date end_date category subcategory : Option String)
    (dry_run : Bool) (exc : Option String) (db : DB) : DeleteResult × DB :=
  let cs := buildWhere expense_id date start_date end_date category subcategory
  if (whereParams cs).isEmpty then
    (.error "No filters provided. Refusing to delete all records.", db)
  else
    match exc with
    | some m => (.error m, db)
    | none =>
        if dry_run then
          (.dry_run (db.rows.filter (matchesAll cs)), db)
        else
          (.ok (db.rows.filter (matchesAll cs)).length,
           { db with rows := db.rows.filter (fun r => !matchesAll cs r) })

/-- Result of `update_expenses` in `main.py`. -/
inductive UpdateResult where
  | ok (updated : Nat)
  | dry_run (rows : List Expense)
  | error (message : String)
deriving Repr, DecidableEq

/-- The tool `update_expenses` of `main.py`: builds the SET clause from the `new_*`
arguments (declining first when it is empty), then the WHERE clause from
the filters (declining when its bound-parameter list is empty); otherwise
either previews the matching rows (dry run) or applies the SET assignments
to every matching row, reporting the affected-row count. -/
def update_expenses (expense_id : Option Nat)
    (start_date end_date filter_date filter_category filter_subcategory : Option String)
    (new_date : Option String) (new_amount : Option Int)
    (new_category new_subcategory new_note : Option String)
    (dry_run : Bool) (exc : Option String) (db : DB) : UpdateResult × DB :=
  let ss := buildSet new_date new_amount new_category new_subcategory new_note
  if ss.isEmpty then
    (.error "No new values provided.", db)
  else
    let cs := buildWhere expense_id filter_date start_date end_date
      filter_category filter_subcategory
    if (whereParams cs).isEmpty then
      (.error "No filters provided. Refusing to update all records.", db)
    else
      match exc with
      | some m => (.error m, db)
      | none =>
          if dry_run then
            (.dry_run (db.rows.filter (matchesAll cs)), db)
          else
            (.ok (db.rows.filter (matchesAll cs)).length,
             { db with
                rows := db.rows.map fun r =>
                  if matchesAll cs r then applySets ss r else r })

end Main

namespace Backup

/-- The date-range conjunct of `backup.py`: guarded by
`if start_date is not None and end_date is not None:`, so the empty string
is a valid (present) bound. -/
def rangeClauses (start_date end_date : Option String) : List WhereClause :=
  match start_date, end_date with
  | some s, some e => [.dateBetween s e]
  | _, _ => []

/-- The WHERE clause list built by `backup.py`'s `delete_expenses`
(lines 107–125) and `update_expenses` (lines 182–200); identical to
`Main.buildWhere` except for the `is not None` guard on the range. -/
def buildWhere (expense_id : Option Nat)
    (date start_date end_date category subcategory : Option String) :
    List WhereClause :=
  (expense_id.map WhereClause.idEq).toList ++
  (date.map WhereClause.dateEq).toList ++
  rangeClauses start_date end_date ++
  (category.map WhereClause.categoryEq).toList ++
  (subcategory.map WhereClause.subcategoryEq).toList

/-- The tool `add_expense` of `backup.py`: same INSERT as `main.py`, but with no
`try`/`except` — a storage exception escapes the operation (`Except.error`). -/
def add_expense (date : String) (amount : Int) (category : String)
    (subcategory : String) (note : String)
    (exc : Option String) (db : DB) : Except String (Main.AddResult × DB) :=
  match exc with
  | some m => .error m
  | none =>
      .ok (.ok db.nextId,
        { rows := db.rows ++ [⟨db.nextId, date, amount, category, subcategory, note⟩],
          nextId := db.nextId + 1 })

/-- The tool `credit_expense` of `backup.py`: stores `-abs(amount)`; no handler. -/
def credit_expense (date : String) (amount : Int) (category : String)
    (subcategory : String) (note : String)
    (exc : Option String) (db : DB) : Except String (Main.CreditResult × DB) :=
  let credit_amount : Int := -(|amount|)
  match exc with
  | some m => .error m
  | none =>
      .ok (.ok db.nextId credit_amount,
        { rows := db.rows ++ [⟨db.nextId, date, credit_amount, category, subcategory, note⟩],
          nextId := db.nextId + 1 })

/-- The tool `delete_expenses` of `backup.py`: same filter construction as
`main.py`'s delete except the `is not None` range guard; no dry-run mode,
no exception handler. -/
def delete_expenses (expense_id : Option Nat)
    (date start_date end_date category subcategory : Option String)
    (exc : Option String) (db : DB) : Except String (Main.DeleteResult × DB) :=
  let cs := buildWhere expense_id date start_date end_date category subcategory
  if (whereParams cs).isEmpty then
    .ok (.error "No filters provided. Refusing to delete all records.", db)
  else
    match exc with
    | some m => .error m
    | none =>
        .ok (.ok (db.rows.filter (matchesAll cs)).length,
          { db with rows := db.rows.filter (fun r => !matchesAll cs r) })

/-- The tool `update_expenses` of `backup.py`: SET clause first (declining when
empty), then the WHERE clause with the `is not None` range guard, then
dry-run preview or mutation; no exception handler. -/
def update_expenses (expense_id : Option Nat)
    (start_date end_date filter_date filter_category filter_subcategory : Option String)
    (new_date : Option String) (new_amount : Option Int)
    (new_category new_subcategory new_note : Option String)
    (dry_run : Bool) (exc : Option String) (db : DB) :
    Except String (Main.UpdateResult × DB) :=
  let ss := buildSet new_date new_amount new_category new_subcategory new_note
  if ss.isEmpty then
    .ok (.error "No new values provided to update.", db)
  else
    let cs := buildWhere expense_id filter_date start_date end_date
      filter_category filter_subcategory
    if (whereParams cs).isEmpty then
      .ok (.error "No filters provided. Refusing to update all records.", db)
    else
      match exc with
      | some m => .error m
      | none =>
          if dry_run then
            .ok (.dry_run (db.rows.filter (matchesAll cs)), db)
          else
            .ok (.ok (db.rows.filter (matchesAll cs)).length,
              { db with
                 rows := db.rows.map fun r =>
                   if matchesAll cs r then applySets ss r else r })

/-- One output row of `backup.py`'s `summarize` (no COUNT column). -/
structure SummaryRow where
  category : String
  total_amount : Int
deriving Repr, DecidableEq

/-- The tool `summarize` of `backup.py`: same `if category:` truthiness filter as
`main.py`, `SUM(amount)` per category, `ORDER BY category ASC`; no handler. -/
def summarize (start_date end_date : String) (category : Option String)
    (exc : Option String) (db : DB) : Except String (List SummaryRow) :=
  match exc with
  | some m => .error m
  | none =>
      let filtered := Main.summarizeFiltered start_date end_date category db
      let cats := (filtered.map (·.category)).dedup
      let rows := cats.map (fun c =>
        let g := filtered.filter (fun r => r.category == c)
        SummaryRow.mk c ((g.map (·.amount)).sum))
      .ok (rows.mergeSort (fun a b => strLe a.category b.category))

end Backup

/-- The state of the external `categories.json` resource as an operation
observes it. -/
inductive Resource where
  | missing
  | present (content : String)
  | readFailure (msg : String)
deriving Repr, DecidableEq

/-- What `main.py`'s `categories()` resource handler returns, by branch:
the file's text verbatim, the serialized built-in default object, or the
serialized error object. -/
inductive CatResult where
  | content (s : String)
  | defaults (cats : List String)
  | errorPayload (msg : String)
deriving Repr, DecidableEq

/-- The built-in `default_categories` list of `main.py`. -/
def defaultCategories : List String :=
  ["Food & Dining", "Transportation", "Shopping", "Entertainment",
   "Bills & Utilities", "Healthcare", "Travel", "Education", "Business", "Other"]

namespace Main

/-- The resource handler `categories` of `main.py`: reads the file and returns its content
verbatim; on `FileNotFoundError` returns the serialized default list; any
other failure is caught by the outer handler and serialized as an error
object.  The file's content is never parsed. -/
def categories : Resource → CatResult
  | .missing => .defaults defaultCategories
  | .present c => .content c
  | .readFailure m => .errorPayload ("Could not load categories: " ++ m)

end Main

namespace Backup

/-- The resource handler `categories` of `backup.py`: opens and returns the file with no
handler at all — a missing file raises `FileNotFoundError` out of the
accessor, and any other read failure likewise escapes. -/
def categories : Resource → Except String String
  | .missing => .error "FileNotFoundError"
  | .present c => .ok c
  | .readFailure m => .error m

end Backup

/-! ## Supporting lemmas -/

theorem strToList_append (s t : String) : (s ++ t).toList = s.toList ++ t.toList := by
  simp [String.toList]

theorem clauseParams_ne_nil (c : WhereClause) : clauseParams c ≠ [] := by
  cases c <;> simp [clauseParams]

/-- The bound-parameter list of a built WHERE clause is empty exactly when
no filter contributed a conjunct: the source's `if not params` check is the
`cs = []` check. -/
theorem whereParams_isEmpty (cs : List WhereClause) :
    (whereParams cs).isEmpty = cs.isEmpty := by
  cases cs with
  | nil => rfl
  | cons c cs => cases c <;> simp [whereParams, clauseParams]

theorem afterFirstAux_cons (sep : List Char) (c : Char) (rest : List Char) :
    afterFirstAux sep (c :: rest) =
      if sep.isPrefixOf (c :: rest) then some ((c :: rest).drop sep.length)
      else afterFirstAux sep rest := rfl

theorem afterFirstAux_here (c0 : Char) (sep' t : List Char) :
    afterFirstAux (c0 :: sep') ((c0 :: sep') ++ t) = some t := by
  have hpre : (c0 :: sep').isPrefixOf ((c0 :: sep') ++ t) = true := by
    rw [List.isPrefixOf_iff_prefix]
    exact List.prefix_append _ _
  rw [List.cons_append] at hpre ⊢
  rw [afterFirstAux, if_pos (by exact hpre)]
  rw [← List.cons_append, List.drop_left]

theorem afterFirstAux_skip (c0 : Char) (sep' a t : List Char) (ha : c0 ∉ a) :
    afterFirstAux (c0 :: sep') (a ++ (c0 :: sep') ++ t) = some t := by
  induction a with
  | nil => simpa using afterFirstAux_here c0 sep' t
  | cons x xs ih =>
      have hx : (c0 == x) = false := by
        have hne : c0 ≠ x := fun h => ha (by simp [h])
        simp [hne]
      have ha' : c0 ∉ xs := fun h => ha (List.mem_cons_of_mem _ h)
      have hpre : (c0 :: sep').isPrefixOf (x :: (xs ++ (c0 :: sep') ++ t)) = false := by
        simp [List.isPrefixOf, hx]
      calc afterFirstAux (c0 :: sep') ((x :: xs) ++ (c0 :: sep') ++ t)
      _ = afterFirstAux (c0 :: sep') (x :: (xs ++ (c0 :: sep') ++ t)) := by
          simp [List.cons_append]
      _ = afterFirstAux (c0 :: sep') (xs ++ (c0 :: sep') ++ t) := by
          rw [afterFirstAux_cons, hpre]
          simp
      _ = some t := ih ha'

/-- Splicing the dry-run preview out of the DELETE statement's text
reproduces exactly the WHERE tail of the mutating statement. -/
theorem pySplitTail_deleteQuery (cs : List WhereClause) :
    pySplitTail "WHERE 1=1" (Main.deleteQuery cs) = some (condsSql cs) := by
  unfold pySplitTail Main.deleteQuery
  rw [strToList_append]
  have h1 : "DELETE FROM expenses WHERE 1=1".toList
      = "DELETE FROM expenses ".toList ++ ('W' :: "HERE 1=1".toList) := by decide
  have h2 : "WHERE 1=1".toList = 'W' :: "HERE 1=1".toList := by decide
  rw [h1, h2, List.append_assoc, ← List.append_assoc,
    afterFirstAux_skip 'W' _ _ _ (by decide)]
  rfl

theorem setSql_no_W (s : SetClause) : 'W' ∉ (setSql s).toList := by
  cases s <;> (simp only [setSql]; decide)

theorem commaJoin_setSql_no_W (ss : List SetClause) :
    'W' ∉ (commaJoin (ss.map setSql)).toList := by
  induction ss with
  | nil => decide
  | cons x xs ih =>
      cases xs with
      | nil => simpa [commaJoin] using setSql_no_W x
      | cons y ys =>
          simp only [List.map_cons, commaJoin, strToList_append, List.mem_append]
          push_neg
          exact ⟨⟨setSql_no_W x, by decide⟩, by simpa [commaJoin] using ih⟩

/-- Splicing the dry-run preview out of the UPDATE statement's text also
reproduces exactly its WHERE tail: the separator `WHERE 1=1` cannot occur
inside the SET clause, whose rendered pieces contain no `W`. -/
theorem pySplitTail_updateQuery (ss : List SetClause) (cs : List WhereClause) :
    pySplitTail "WHERE 1=1" (Main.updateQuery ss cs) = some (condsSql cs) := by
  unfold pySplitTail Main.updateQuery
  rw [strToList_append, strToList_append, strToList_append]
  have h2 : "WHERE 1=1".toList = 'W' :: "HERE 1=1".toList := by decide
  have h3 : " WHERE 1=1".toList = " ".toList ++ ('W' :: "HERE 1=1".toList) := by decide
  rw [h2, h3]
  have hnoW : 'W' ∉ "UPDATE expenses SET ".toList ++
      ((commaJoin (ss.map setSql)).toList ++ " ".toList) := by
    simp only [List.mem_append]
    push_neg
    exact ⟨by decide, commaJoin_setSql_no_W ss, by decide⟩
  have := afterFirstAux_skip 'W' "HERE 1=1".toList
    ("UPDATE expenses SET ".toList ++ ((commaJoin (ss.map setSql)).toList ++ " ".toList))
    (condsSql cs).toList hnoW
  rw [show "UPDATE expenses SET ".toList ++ (commaJoin (ss.map setSql)).toList ++
      (" ".toList ++ ('W' :: "HERE 1=1".toList)) ++ (condsSql cs).toList
      = ("UPDATE expenses SET ".toList ++
          ((commaJoin (ss.map setSql)).toList ++ " ".toList)) ++
        ('W' :: "HERE 1=1".toList) ++ (condsSql cs).toList by
    simp [List.append_assoc]]
  rw [this]
  rfl

/-! ## Claim theorems -/

/-- C1 (counterexample): an `update_expenses` call with every filter field
absent does **not** always return the `NoFiltersProvided` result — when the
`new_*` fields are also all absent, the new-value check fires first and the
call returns the distinct `NoUpdateValuesProvided` message instead. -/
theorem claim1_counterexample :
    Main.update_expenses none none none none none none none none none none none
        false none ⟨[], 1⟩
      = (.error "No new values provided.", ⟨[], 1⟩) ∧
    "No new values provided." ≠ "No filters provided. Refusing to update all records." :=
  ⟨rfl, by decide⟩

/-- C1 (amended): a `delete_expenses` call with every filter field absent
returns the `NoFiltersProvided` error and leaves the table unchanged; an
`update_expenses` call with every filter field absent and at least one
new-value field present likewise returns the `NoFiltersProvided` error and
leaves the table unchanged. -/
theorem claim1_no_filters_declined (dry : Bool) (exc : Option String) (db : DB)
    (nd : Option String) (na : Option Int) (nc nsub nn : Option String)
    (hss : buildSet nd na nc nsub nn ≠ []) :
    Main.delete_expenses none none none none none none dry exc db
      = (.error "No filters provided. Refusing to delete all records.", db) ∧
    Main.update_expenses none none none none none none nd na nc nsub nn dry exc db
      = (.error "No filters provided. Refusing to update all records.", db) := by
  refine ⟨rfl, ?_⟩
  have h : (buildSet nd na nc nsub nn).isEmpty = false := by
    cases hh : buildSet nd na nc nsub nn with
    | nil => exact absurd hh hss
    | cons a l => rfl
  simp [Main.update_expenses, h, Main.buildWhere, Main.rangeClauses, whereParams]

theorem claim1_no_filters_declined_witness :
    Main.delete_expenses none none none none none none false none ⟨[], 1⟩
      = (.error "No filters provided. Refusing to delete all records.", ⟨[], 1⟩) ∧
    Main.update_expenses none none none none none none (some "2024-01-01") none none
        none none false none ⟨[], 1⟩
      = (.error "No filters provided. Refusing to update all records.", ⟨[], 1⟩) :=
  claim1_no_filters_declined false none ⟨[], 1⟩ (some "2024-01-01") none none none none
    (by decide)

/-- C3: an `update_expenses` call with every new-value field absent returns
the `NoUpdateValuesProvided` error (in both variants) and mutates nothing;
since the new-value check precedes the filter check, this also holds when
every filter is absent, and the message is not the `NoFiltersProvided` one. -/
theorem claim3_no_update_values (eid : Option Nat) (sd ed fd fc fs : Option String)
    (dry : Bool) (exc : Option String) (db : DB) :
    Main.update_expenses eid sd ed fd fc fs none none none none none dry exc db
      = (.error "No new values provided.", db) ∧
    Backup.update_expenses eid sd ed fd fc fs none none none none none dry exc db
      = Except.ok (.error "No new values provided to update.", db) ∧
    "No new values provided." ≠ "No filters provided. Refusing to update all records." :=
  ⟨rfl, rfl, by decide⟩

/-- C4: `credit_expense` (both variants) inserts exactly one record whose
stored amount is `-abs(amount)` and returns status ok with the fresh id and
a `credited` field equal to the stored amount; inputs `50` and `-50` both
store `-50`. -/
theorem claim4_credit_negates (date : String) (amount : Int) (cat sub note : String)
    (db : DB) :
    Main.credit_expense date amount cat sub note none db
      = (.ok db.nextId (-|amount|),
         { rows := db.rows ++ [⟨db.nextId, date, -|amount|, cat, sub, note⟩],
           nextId := db.nextId + 1 }) ∧
    Backup.credit_expense date amount cat sub note none db
      = Except.ok (.ok db.nextId (-|amount|),
         { rows := db.rows ++ [⟨db.nextId, date, -|amount|, cat, sub, note⟩],
           nextId := db.nextId + 1 }) ∧
    -|(50 : Int)| = -50 ∧ -|(-50 : Int)| = -50 :=
  ⟨rfl, rfl, by decide, by decide⟩

/-- C7: a lone `start_date` or lone `end_date` never activates the range
predicate: in both variants, delete and update behave identically (same
result, same resulting table) to the call with both bounds absent. -/
theorem claim7_lone_bound_ignored (eid : Option Nat) (d : Option String) (s e : String)
    (cat sub fd fc fs : Option String) (nd : Option String) (na : Option Int)
    (nc nsub nn : Option String) (dry : Bool) (exc : Option String) (db : DB) :
    (Main.delete_expenses eid d (some s) none cat sub dry exc db
       = Main.delete_expenses eid d none none cat sub dry exc db) ∧
    (Main.delete_expenses eid d none (some e) cat sub dry exc db
       = Main.delete_expenses eid d none none cat sub dry exc db) ∧
    (Main.update_expenses eid (some s) none fd fc fs nd na nc nsub nn dry exc db
       = Main.update_expenses eid none none fd fc fs nd na nc nsub nn dry exc db) ∧
    (Main.update_expenses eid none (some e) fd fc fs nd na nc nsub nn dry exc db
       = Main.update_expenses eid none none fd fc fs nd na nc nsub nn dry exc db) ∧
    (Backup.delete_expenses eid d (some s) none cat sub exc db
       = Backup.delete_expenses eid d none none cat sub exc db) ∧
    (Backup.delete_expenses eid d none (some e) cat sub exc db
       = Backup.delete_expenses eid d none none cat sub exc db) ∧
    (Backup.update_expenses eid (some s) none fd fc fs nd na nc nsub nn dry exc db
       = Backup.update_expenses eid none none fd fc fs nd na nc nsub nn dry exc db) ∧
    (Backup.update_expenses eid none (some e) fd fc fs nd na nc nsub nn dry exc db
       = Backup.update_expenses eid none none fd fc fs nd na nc nsub nn dry exc db) :=
  ⟨rfl, rfl, rfl, rfl, rfl, rfl, rfl, rfl⟩

/-- C8 (counterexample): `backup.py`'s `add_expense` has no exception
handler, so a storage failure raised during its execution escapes the
operation as an exception instead of being converted to a
`{status: error}` envelope. -/
theorem claim8_counterexample :
    Backup.add_expense "2024-01-01" 10 "Food" "" "" (some "disk full") ⟨[], 1⟩
      = Except.error "disk full" :=
  rfl

/-- C8 (amended): every operation of `main.py` catches a storage failure
raised during its execution and converts it to a status-error result,
leaving the table unchanged; the operations of `backup.py` have no handler
and propagate the failure past their boundary. -/
theorem claim8_storage_failures (d : String) (a : Int) (c sc n m s e : String)
    (cat : Option String) (eid : Option Nat) (dd sd ed catf sub fd fc fs : Option String)
    (ndv : Option String) (na : Option Int) (nc nsub nn : Option String)
    (dry : Bool) (db : DB) :
    (Main.add_expense d a c sc n (some m) db = (.error m, db)) ∧
    (Main.credit_expense d a c sc n (some m) db = (.error m, db)) ∧
    (Main.list_expenses s e (some m) db = .error m) ∧
    (Main.summarize s e cat (some m) db = .error m) ∧
    (∃ msg, Main.delete_expenses eid dd sd ed catf sub dry (some m) db
       = (.error msg, db)) ∧
    (∃ msg, Main.update_expenses eid sd ed fd fc fs ndv na nc nsub nn dry (some m) db
       = (.error msg, db)) ∧
    (Backup.add_expense d a c sc n (some m) db = Except.error m) ∧
    (Backup.credit_expense d a c sc n (some m) db = Except.error m) := by
  refine ⟨rfl, rfl, rfl, rfl, ?_, ?_, rfl, rfl⟩
  · cases h : (whereParams (Main.buildWhere eid dd sd ed catf sub)).isEmpty with
    | true => exact ⟨"No filters provided. Refusing to delete all records.",
        by simp [Main.delete_expenses, h]⟩
    | false => exact ⟨m, by simp [Main.delete_expenses, h]⟩
  · cases hs : (buildSet ndv na nc nsub nn).isEmpty with
    | true => exact ⟨"No new values provided.", by simp [Main.update_expenses, hs]⟩
    | false =>
        cases h : (whereParams (Main.buildWhere eid fd sd ed fc fs)).isEmpty with
        | true => exact ⟨"No filters provided. Refusing to update all records.",
            by simp [Main.update_expenses, hs, h]⟩
        | false => exact ⟨m, by simp [Main.update_expenses, hs, h]⟩

/-- C9 (counterexample): when the categories resource exists but holds text
that is not parsable as structured JSON, `main.py`'s accessor returns that
unparsed content verbatim, not an error-shaped payload; and `backup.py`'s
accessor throws (`FileNotFoundError` escapes) when the resource is absent. -/
theorem claim9_counterexample :
    Main.categories (.present "not valid json") = .content "not valid json" ∧
    Backup.categories .missing = Except.error "FileNotFoundError" :=
  ⟨rfl, rfl⟩

/-- C9 (amended): `main.py`'s accessor never throws: an absent resource
yields the built-in default list of ten category names, an existing
resource is returned verbatim without any parsing (malformed content
included), and only a non-absence read failure yields the error-shaped
payload. `backup.py`'s accessor propagates the exception when the resource
is absent. -/
theorem claim9_categories_behavior (c m : String) :
    Main.categories .missing = .defaults defaultCategories ∧
    defaultCategories.length = 10 ∧
    Main.categories (.present c) = .content c ∧
    Main.categories (.readFailure m) = .errorPayload ("Could not load categories: " ++ m) ∧
    Backup.categories .missing = Except.error "FileNotFoundError" ∧
    Backup.categories (.present c) = Except.ok c :=
  ⟨rfl, rfl, rfl, rfl, rfl, rfl⟩

/-- C10: passing the empty string as `summarize`'s category is identical to
passing no category at all (Python's `if category:` is false for both), in
both variants. -/
theorem claim10_empty_category_no_filter (s e : String) (exc : Option String) (db : DB) :
    Main.summarize s e (some "") exc db = Main.summarize s e none exc db ∧
    Backup.summarize s e (some "") exc db = Backup.summarize s e none exc db :=
  ⟨rfl, rfl⟩

/-- C6 (counterexample): in `main.py`, `start_date` passed as the empty
string (with `end_date` present) is **not** treated as a present filter:
the truthiness guard drops the range predicate, the call is declined for
having no filters, and no row is touched — identical to the field being
absent, contradicting the claim for the `start_date`/`end_date` fields. -/
theorem claim6_counterexample :
    Main.delete_expenses none none (some "") (some "2024-12-31") none none false none
        ⟨[⟨1, "2024-06-01", 10, "Food", "", ""⟩], 2⟩
      = (.error "No filters provided. Refusing to delete all records.",
         ⟨[⟨1, "2024-06-01", 10, "Food", "", ""⟩], 2⟩) ∧
    Main.buildWhere none none (some "") (some "2024-12-31") none none = [] :=
  ⟨rfl, rfl⟩

/-- C6 (amended): for the scalar filter fields (exact date, category,
subcategory) and every new-value field, the empty string is present and
semantically distinct from absence — it contributes an equality-with-`""`
predicate (resp. a SET assignment), while absence contributes nothing.
For `start_date`/`end_date`, however, `main.py`'s truthiness guard treats
an empty-string bound exactly like an absent one in both delete and
update, whereas `backup.py`'s `is not None` guard keeps it as a real bound. -/
theorem claim6_empty_string_fields (r : Expense) (e : String)
    (eid : Option Nat) (d cat sub fd fc fs : Option String)
    (nd : Option String) (na : Option Int) (nc nsub nn : Option String)
    (dry : Bool) (exc : Option String) (db : DB) :
    (Main.buildWhere none (some "") none none none none = [.dateEq ""]) ∧
    (Main.buildWhere none none none none (some "") none = [.categoryEq ""]) ∧
    (Main.buildWhere none none none none none (some "") = [.subcategoryEq ""]) ∧
    (matchesClause r (.dateEq "") = (r.date == "")) ∧
    (matchesClause r (.categoryEq "") = (r.category == "")) ∧
    (matchesClause r (.subcategoryEq "") = (r.subcategory == "")) ∧
    (buildSet (some "") none none none none = [.date ""]) ∧
    (buildSet none none (some "") none none = [.category ""]) ∧
    (buildSet none none none (some "") none = [.subcategory ""]) ∧
    (buildSet none none none none (some "") = [.note ""]) ∧
    (Main.buildWhere none none none none none none = []) ∧
    (buildSet none none none none none = []) ∧
    (Main.delete_expenses eid d (some "") (some e) cat sub dry exc db
       = Main.delete_expenses eid d none none cat sub dry exc db) ∧
    (Main.delete_expenses eid d (some e) (some "") cat sub dry exc db
       = Main.delete_expenses eid d none none cat sub dry exc db) ∧
    (Main.update_expenses eid (some "") (some e) fd fc fs nd na nc nsub nn dry exc db
       = Main.update_expenses eid none none fd fc fs nd na nc nsub nn dry exc db) ∧
    (Main.update_expenses eid (some e) (some "") fd fc fs nd na nc nsub nn dry exc db
       = Main.update_expenses eid none none fd fc fs nd na nc nsub nn dry exc db) ∧
    (Backup.rangeClauses (some "") (some e) = [.dateBetween "" e]) ∧
    (Backup.rangeClauses (some e) (some "") = [.dateBetween e ""]) := by
  have hr : Main.rangeClauses (some e) (some "") = [] := by
    simp [Main.rangeClauses]
  have hw : ∀ (eid' : Option Nat) (d' cat' sub' : Option String),
      Main.buildWhere eid' d' (some e) (some "") cat' sub'
        = Main.buildWhere eid' d' none none cat' sub' := by
    intro eid' d' cat' sub'
    simp [Main.buildWhere, hr, Main.rangeClauses]
  refine ⟨rfl, rfl, rfl, rfl, rfl, rfl, rfl, rfl, rfl, rfl, rfl, rfl, rfl, ?_, rfl, ?_, rfl, rfl⟩
  · simp only [Main.delete_expenses, hw]
  · simp only [Main.update_expenses, hw]

/-- C2 (counterexample): an `update_expenses` call with dry-run requested
and a filter present (`expense_id = 1`) does **not** execute the preview
SELECT when every new-value field is absent — the new-value check fires
first and the call returns an error result instead of a dry-run result. -/
theorem claim2_counterexample :
    Main.update_expenses (some 1) none none none none none none none none none none
        true none ⟨[], 1⟩
      = (.error "No new values provided.", ⟨[], 1⟩) :=
  rfl

/-- C2 (amended): for every table state, a delete (resp. update, provided
at least one new-value field is present) with dry-run requested and at
least one activated filter executes a read-only SELECT whose WHERE tail —
obtained by splicing the mutating statement's text at `WHERE 1=1` — is
identical to the mutating statement's, returns exactly the full matching
rows, and leaves the table unchanged; a subsequent non-dry-run call with
identical filters on the unchanged table reports an affected-row count
equal to the number of rows previewed. -/
theorem claim2_dry_run_preview (eid : Option Nat) (d sd ed cat sub fd fc fs : Option String)
    (nd : Option String) (na : Option Int) (nc nsub nn : Option String) (db : DB)
    (hcs : Main.buildWhere eid d sd ed cat sub ≠ [])
    (hss : buildSet nd na nc nsub nn ≠ [])
    (hcsu : Main.buildWhere eid fd sd ed fc fs ≠ []) :
    (Main.delete_expenses eid d sd ed cat sub true none db
       = (.dry_run (db.rows.filter (matchesAll (Main.buildWhere eid d sd ed cat sub))), db)) ∧
    (Main.previewQuery (Main.deleteQuery (Main.buildWhere eid d sd ed cat sub))
       = some (Main.selectQuery (Main.buildWhere eid d sd ed cat sub))) ∧
    ((Main.delete_expenses eid d sd ed cat sub false none db).1
       = .ok (db.rows.filter (matchesAll (Main.buildWhere eid d sd ed cat sub))).length) ∧
    (Main.update_expenses eid sd ed fd fc fs nd na nc nsub nn true none db
       = (.dry_run (db.rows.filter (matchesAll (Main.buildWhere eid fd sd ed fc fs))), db)) ∧
    (Main.previewQuery (Main.updateQuery (buildSet nd na nc nsub nn)
        (Main.buildWhere eid fd sd ed fc fs))
       = some (Main.selectQuery (Main.buildWhere eid fd sd ed fc fs))) ∧
    ((Main.update_expenses eid sd ed fd fc fs nd na nc nsub nn false none db).1
       = .ok (db.rows.filter (matchesAll (Main.buildWhere eid fd sd ed fc fs))).length) := by
  have hne : ∀ cs : List WhereClause, cs ≠ [] → (whereParams cs).isEmpty = false := by
    intro cs h
    rw [whereParams_isEmpty]
    cases cs with
    | nil => exact absurd rfl h
    | cons a l => rfl
  have h1 := hne _ hcs
  have h2 := hne _ hcsu
  have hsse : (buildSet nd na nc nsub nn).isEmpty = false := by
    cases hh : buildSet nd na nc nsub nn with
    | nil => exact absurd hh hss
    | cons a l => rfl
  refine ⟨?_, ?_, ?_, ?_, ?_, ?_⟩
  · simp [Main.delete_expenses, h1]
  · simp [Main.previewQuery, pySplitTail_deleteQuery, Main.selectQuery]
  · simp [Main.delete_expenses, h1]
  · simp [Main.update_expenses, hsse, h2]
  · simp [Main.previewQuery, pySplitTail_updateQuery, Main.selectQuery]
  · simp [Main.update_expenses, hsse, h2]

theorem claim2_dry_run_preview_witness :
    Main.buildWhere (some 1) none none none none none ≠ [] ∧
    buildSet (some "2024-01-01") none none none none ≠ [] ∧
    Main.delete_expenses (some 1) none none none none none true none ⟨[], 1⟩
      = (.dry_run [], ⟨[], 1⟩) :=
  ⟨by decide, by decide,
   (claim2_dry_run_preview (some 1) none none none none none none none none
      (some "2024-01-01") none none none none ⟨[], 1⟩
      (by decide) (by decide) (by decide)).1⟩

/-- Every row of a `summarize` result reports, for its category, the sum
of the amounts and the row count of the aggregated rows of that category,
and its category occurs among the aggregated rows. -/
theorem summarize_row_spec (s e : String) (category : Option String) (db : DB)
    (row : Main.SummaryRow)
    (hrow : row ∈ (Main.summarize s e category none db).getRows) :
    row.total_amount = (((Main.summarizeFiltered s e category db).filter
        (fun r => r.category == row.category)).map (fun r => r.amount)).sum ∧
    row.count = ((Main.summarizeFiltered s e category db).filter
        (fun r => r.category == row.category)).length ∧
    row.category ∈ (Main.summarizeFiltered s e category db).map (fun r => r.category) := by
  simp only [Main.summarize, Main.SummarizeResult.getRows] at hrow
  rw [List.mem_mergeSort] at hrow
  obtain ⟨cc, hcc, rfl⟩ := List.mem_map.1 hrow
  exact ⟨rfl, rfl, List.mem_dedup.1 hcc⟩

/-- Every category occurring among the rows `summarize` aggregates over
yields a result row. -/
theorem summarize_mem_of_cat (s e : String) (category : Option String) (db : DB)
    (c : String)
    (hc : c ∈ (Main.summarizeFiltered s e category db).map (fun r => r.category)) :
    ∃ row ∈ (Main.summarize s e category none db).getRows, row.category = c := by
  simp only [Main.summarize, Main.SummarizeResult.getRows]
  have hcc : c ∈ ((Main.summarizeFiltered s e category db).map
      (fun r => r.category)).dedup := List.mem_dedup.2 hc
  exact ⟨_, by rw [List.mem_mergeSort]; exact List.mem_map_of_mem _ hcc, rfl⟩

/-- C5: for every table state, date range, and category present in that
range, the `total_amount` reported for that category by `summarize` equals
the arithmetic sum of the amounts of the `list_expenses` rows of the same
range restricted to that category — both when no category filter is passed
and when the same category is passed as the optional filter. -/
theorem claim5_summarize_matches_list (db : DB) (s e c : String)
    (hc : c ∈ (db.rows.filter (Main.inRange s e)).map (fun r => r.category)) :
    (∀ row ∈ (Main.summarize s e none none db).getRows, row.category = c →
       row.total_amount
         = (((Main.list_expenses s e none db).getRows.filter
              (fun r => r.category == c)).map (fun r => r.amount)).sum) ∧
    (∃ row ∈ (Main.summarize s e none none db).getRows, row.category = c) ∧
    (∀ row ∈ (Main.summarize s e (some c) none db).getRows, row.category = c →
       row.total_amount
         = (((Main.list_expenses s e none db).getRows.filter
              (fun r => r.category == c)).map (fun r => r.amount)).sum) ∧
    (∃ row ∈ (Main.summarize s e (some c) none db).getRows, row.category = c) := by
  have hsum : (((Main.list_expenses s e none db).getRows.filter
        (fun r => r.category == c)).map (fun r => r.amount)).sum
      = (((Main.summarizeFiltered s e none db).filter
        (fun r => r.category == c)).map (fun r => r.amount)).sum := by
    have hperm := List.mergeSort_perm (db.rows.filter (Main.inRange s e)) Main.listOrder
    exact ((hperm.filter _).map _).sum_eq
  refine ⟨?_, ?_, ?_, ?_⟩
  · intro row hrow hcat
    obtain ⟨h1, -, -⟩ := summarize_row_spec s e none db row hrow
    rw [hcat] at h1
    rw [h1, hsum]
  · exact summarize_mem_of_cat s e none db c hc
  · intro row hrow hcat
    obtain ⟨h1, -, -⟩ := summarize_row_spec s e (some c) db row hrow
    rw [hcat] at h1
    rw [h1, hsum]
    by_cases hc0 : c = ""
    · subst hc0
      rfl
    · have hfil : Main.summarizeFiltered s e (some c) db
          = (db.rows.filter (Main.inRange s e)).filter (fun r => r.category == c) := by
        simp [Main.summarizeFiltered, hc0]
      rw [hfil]
      have hff : ((db.rows.filter (Main.inRange s e)).filter
            (fun r => r.category == c)).filter (fun r => r.category == c)
          = (db.rows.filter (Main.inRange s e)).filter (fun r => r.category == c) := by
        simp [List.filter_filter]
      rw [hff]
      rfl
  · by_cases hc0 : c = ""
    · subst hc0
      exact summarize_mem_of_cat s e (some "") db "" hc
    · apply summarize_mem_of_cat
      have hfil : Main.summarizeFiltered s e (some c) db
          = (db.rows.filter (Main.inRange s e)).filter (fun r => r.category == c) := by
        simp [Main.summarizeFiltered, hc0]
      rw [hfil]
      obtain ⟨r, hr, hrc⟩ := List.mem_map.1 hc
      have hrf : r ∈ (db.rows.filter (Main.inRange s e)).filter
          (fun x => x.category == c) := List.mem_filter.2 ⟨hr, by simp [hrc]⟩
      exact List.mem_map.2 ⟨r, hrf, hrc⟩

theorem claim5_summarize_matches_list_witness :
    "Food" ∈ ((DB.mk [⟨1, "2024-01-01", 10, "Food", "", ""⟩] 2).rows.filter
        (Main.inRange "2024-01-01" "2024-12-31")).map (fun r => r.category) ∧
    (∃ row ∈ (Main.summarize "2024-01-01" "2024-12-31" none none
        (DB.mk [⟨1, "2024-01-01", 10, "Food", "", ""⟩] 2)).getRows,
      row.category = "Food") :=
  ⟨by decide,
   (claim5_summarize_matches_list (DB.mk [⟨1, "2024-01-01", 10, "Food", "", ""⟩] 2)
      "2024-01-01" "2024-12-31" "Food" (by decide)).2.1⟩

end ExpenseTracker
